import Mathlib

/-!
Shallow embedding of the biometric enrollment/verification pipeline of the
`authentication-system` repository (FastAPI + SQLAlchemy), and proofs of the
specified properties against it.

Conventions of the embedding:
* machine floats become exact real numbers (`ℝ`);
* byte strings become `List Nat`;
* external collaborators (OpenCV frame/face extraction, SHA-256, Fernet
  encryption, numpy (de)serialisation) are parameters of the definitions,
  so every theorem holds for arbitrary implementations of those
  collaborators unless a round-trip hypothesis is stated;
* SQLAlchemy rows become list elements, mutated positionally in iteration
  order, exactly as the Python loops mutate the queried row objects.
-/

namespace BiometricAuth

/-- Raw byte strings (contents of `bytes` values). -/
abbrev Bytes := List Nat

/-- Feature vectors (`np.ndarray` of `float64`), in exact real arithmetic. -/
abbrev Vec := List ℝ

/-- `np.dot` on two 1-D arrays: sum of pairwise products. -/
def dot (a b : Vec) : ℝ := (List.zipWith (fun x y => x * y) a b).sum

/-- `np.linalg.norm`: the Euclidean norm, square root of the sum of squares. -/
noncomputable def linalg_norm (a : Vec) : ℝ := Real.sqrt (dot a a)

/-- `BiometricService.calculate_similarity` (biometric_service.py:256-272).
`np.dot` raises on mismatched 1-D lengths; the surrounding `try` returns
`0.0` in that case.  Otherwise: `0.0` when either norm is zero, else the
cosine similarity clamped below by `0`. -/
noncomputable def calculate_similarity (features1 features2 : Vec) : ℝ :=
  if features1.length ≠ features2.length then 0
  else if linalg_norm features1 = 0 ∨ linalg_norm features2 = 0 then 0
  else max 0 (dot features1 features2 / (linalg_norm features1 * linalg_norm features2))

/-- `FingerprintService.calculate_fingerprint_similarity`
(fingerprint_service.py:63-84): same as the face scorer but clamped to
`[0,1]` via `max(0.0, min(1.0, similarity))`. -/
noncomputable def calculate_fingerprint_similarity (features1 features2 : Vec) : ℝ :=
  if features1.length ≠ features2.length then 0
  else if linalg_norm features1 = 0 ∨ linalg_norm features2 = 0 then 0
  else max 0 (min 1 (dot features1 features2 / (linalg_norm features1 * linalg_norm features2)))

lemma dot_nil (b : Vec) : dot [] b = 0 := rfl

lemma dot_cons (x y : ℝ) (a b : Vec) : dot (x :: a) (y :: b) = x * y + dot a b := by
  simp [dot]

lemma dot_self_nonneg (a : Vec) : 0 ≤ dot a a := by
  induction a with
  | nil => simp [dot]
  | cons x xs ih => rw [dot_cons]; exact add_nonneg (mul_self_nonneg x) ih

lemma dot_self_pos {a : Vec} (h : ∃ x ∈ a, x ≠ 0) : 0 < dot a a := by
  induction a with
  | nil => simp at h
  | cons x xs ih =>
    rw [dot_cons]
    rcases h with ⟨y, hy, hy0⟩
    rcases List.mem_cons.mp hy with rfl | hmem
    · exact add_pos_of_pos_of_nonneg (mul_self_pos.mpr hy0) (dot_self_nonneg xs)
    · exact add_pos_of_nonneg_of_pos (mul_self_nonneg x) (ih ⟨y, hmem, hy0⟩)

lemma dot_self_eq_zero {a : Vec} (h : ∀ x ∈ a, x = 0) : dot a a = 0 := by
  induction a with
  | nil => simp [dot]
  | cons x xs ih =>
    rw [dot_cons, h x (List.mem_cons_self x xs), ih fun y hy => h y (List.mem_cons_of_mem x hy)]
    ring

lemma dot_eq_range (a b : Vec) (h : a.length = b.length) :
    dot a b = ∑ i ∈ Finset.range a.length, a.getD i 0 * b.getD i 0 := by
  induction a generalizing b with
  | nil => simp [dot]
  | cons x xs ih =>
    cases b with
    | nil => simp at h
    | cons y ys =>
      have hlen : xs.length = ys.length := by simpa using h
      rw [dot_cons, ih ys hlen, List.length_cons, Finset.sum_range_succ']
      simp [add_comm]

/-- Cauchy–Schwarz for equal-length vectors, in the `dot` form. -/
lemma dot_sq_le (a b : Vec) (h : a.length = b.length) :
    (dot a b) ^ 2 ≤ dot a a * dot b b := by
  rw [dot_eq_range a b h, dot_eq_range a a rfl, dot_eq_range b b rfl, ← h]
  have := Finset.sum_mul_sq_le_sq_mul_sq (Finset.range a.length)
    (fun i => a.getD i 0) (fun i => b.getD i 0)
  calc (∑ i ∈ Finset.range a.length, a.getD i 0 * b.getD i 0) ^ 2
      ≤ (∑ i ∈ Finset.range a.length, a.getD i 0 ^ 2) *
        ∑ i ∈ Finset.range a.length, b.getD i 0 ^ 2 := this
    _ = (∑ i ∈ Finset.range a.length, a.getD i 0 * a.getD i 0) *
        ∑ i ∈ Finset.range a.length, b.getD i 0 * b.getD i 0 := by
        simp [pow_two]

lemma linalg_norm_nonneg (a : Vec) : 0 ≤ linalg_norm a := Real.sqrt_nonneg _

lemma linalg_norm_eq_zero_iff (a : Vec) : linalg_norm a = 0 ↔ dot a a = 0 := by
  unfold linalg_norm
  constructor
  · intro h
    exact le_antisymm (Real.sqrt_eq_zero'.mp h) (dot_self_nonneg a)
  · intro h; rw [h, Real.sqrt_zero]

lemma mul_self_linalg_norm (a : Vec) : linalg_norm a * linalg_norm a = dot a a :=
  Real.mul_self_sqrt (dot_self_nonneg a)

/-- Cauchy–Schwarz in the norm form. -/
lemma dot_le_norm_mul_norm (a b : Vec) (h : a.length = b.length) :
    dot a b ≤ linalg_norm a * linalg_norm b := by
  have h1 : dot a b ≤ |dot a b| := le_abs_self _
  have h2 : |dot a b| = Real.sqrt ((dot a b) ^ 2) := (Real.sqrt_sq_eq_abs _).symm
  have h3 : Real.sqrt ((dot a b) ^ 2) ≤ Real.sqrt (dot a a * dot b b) :=
    Real.sqrt_le_sqrt (dot_sq_le a b h)
  have h4 : Real.sqrt (dot a a * dot b b) = linalg_norm a * linalg_norm b := by
    unfold linalg_norm
    exact Real.sqrt_mul (dot_self_nonneg a) _
  linarith [h1, h2 ▸ h1, h3, h4 ▸ h3]

lemma calculate_similarity_self {a : Vec} (h : ∃ x ∈ a, x ≠ 0) :
    calculate_similarity a a = 1 := by
  have hpos : 0 < dot a a := dot_self_pos h
  have hnz : ¬ linalg_norm a = 0 := by
    rw [linalg_norm_eq_zero_iff]; exact ne_of_gt hpos
  unfold calculate_similarity
  rw [if_neg (by simp), if_neg (by tauto)]
  rw [mul_self_linalg_norm, div_self (ne_of_gt hpos)]
  simp

lemma calculate_fingerprint_similarity_self {a : Vec} (h : ∃ x ∈ a, x ≠ 0) :
    calculate_fingerprint_similarity a a = 1 := by
  have hpos : 0 < dot a a := dot_self_pos h
  have hnz : ¬ linalg_norm a = 0 := by
    rw [linalg_norm_eq_zero_iff]; exact ne_of_gt hpos
  unfold calculate_fingerprint_similarity
  rw [if_neg (by simp), if_neg (by tauto)]
  rw [mul_self_linalg_norm, div_self (ne_of_gt hpos)]
  norm_num

lemma calculate_similarity_nonneg (a b : Vec) : 0 ≤ calculate_similarity a b := by
  unfold calculate_similarity
  split
  · exact le_refl 0
  · split
    · exact le_refl 0
    · exact le_max_left 0 _

lemma calculate_similarity_le_one (a b : Vec) : calculate_similarity a b ≤ 1 := by
  unfold calculate_similarity
  split
  · exact zero_le_one
  · rename_i hlen
    split
    · exact zero_le_one
    · rename_i hnorm
      push_neg at hnorm
      push_neg at hlen
      have ha : 0 < linalg_norm a := lt_of_le_of_ne (linalg_norm_nonneg a) (Ne.symm hnorm.1)
      have hb : 0 < linalg_norm b := lt_of_le_of_ne (linalg_norm_nonneg b) (Ne.symm hnorm.2)
      have hcs := dot_le_norm_mul_norm a b hlen
      have hdiv : dot a b / (linalg_norm a * linalg_norm b) ≤ 1 :=
        (div_le_one (mul_pos ha hb)).mpr hcs
      exact max_le (by norm_num) hdiv

lemma calculate_fingerprint_similarity_nonneg (a b : Vec) :
    0 ≤ calculate_fingerprint_similarity a b := by
  unfold calculate_fingerprint_similarity
  split
  · exact le_refl 0
  · split
    · exact le_refl 0
    · exact le_max_left 0 _

lemma calculate_fingerprint_similarity_le_one (a b : Vec) :
    calculate_fingerprint_similarity a b ≤ 1 := by
  unfold calculate_fingerprint_similarity
  split
  · exact zero_le_one
  · split
    · exact zero_le_one
    · exact max_le zero_le_one (min_le_left 1 _)

lemma calculate_similarity_zero_left {a : Vec} (b : Vec) (h : ∀ x ∈ a, x = 0) :
    calculate_similarity a b = 0 := by
  have : linalg_norm a = 0 := (linalg_norm_eq_zero_iff a).mpr (dot_self_eq_zero h)
  unfold calculate_similarity
  split
  · rfl
  · rw [if_pos (Or.inl this)]

lemma calculate_similarity_zero_right (a : Vec) {b : Vec} (h : ∀ x ∈ b, x = 0) :
    calculate_similarity a b = 0 := by
  have : linalg_norm b = 0 := (linalg_norm_eq_zero_iff b).mpr (dot_self_eq_zero h)
  unfold calculate_similarity
  split
  · rfl
  · rw [if_pos (Or.inr this)]

lemma calculate_fingerprint_similarity_zero_left {a : Vec} (b : Vec) (h : ∀ x ∈ a, x = 0) :
    calculate_fingerprint_similarity a b = 0 := by
  have : linalg_norm a = 0 := (linalg_norm_eq_zero_iff a).mpr (dot_self_eq_zero h)
  unfold calculate_fingerprint_similarity
  split
  · rfl
  · rw [if_pos (Or.inl this)]

lemma calculate_fingerprint_similarity_zero_right (a : Vec) {b : Vec} (h : ∀ x ∈ b, x = 0) :
    calculate_fingerprint_similarity a b = 0 := by
  have : linalg_norm b = 0 := (linalg_norm_eq_zero_iff b).mpr (dot_self_eq_zero h)
  unfold calculate_fingerprint_similarity
  split
  · rfl
  · rw [if_pos (Or.inr this)]

/-- `BiometricType` enum (models/biometric.py:11-14). -/
inductive BiometricType
  | FACE
  | FINGERPRINT
  deriving DecidableEq

/-- The `BiometricTemplate` ORM row (models/biometric.py:16-57).
Timestamps are modelled as `Nat` instants supplied by the caller in place of
`datetime.now()`; string metadata columns untouched by the claims
(`template_version`, `enrollment_device`, ...) are omitted. -/
structure BiometricTemplate where
  id : Nat
  user_id : Nat
  biometric_type : BiometricType := BiometricType.FACE
  template_data : Bytes := []
  template_hash : Bytes := []
  quality_score : ℝ := 0
  confidence_score : ℝ := 0
  is_active : Bool := true
  is_primary : Bool := false
  verification_count : Nat := 0
  last_used : Option Nat := none

/-- The `BiometricResult` response schema (schemas/biometric.py:36-45),
restricted to the fields the services set. -/
structure BiometricResult where
  success : Bool
  message : String
  similarity_score : Option ℝ := none
  threshold_used : Option ℝ := none
  face_detected : Bool := false
  quality_score : Option ℝ := none
  template_id : Option Nat := none

/-- `settings.BIOMETRIC_THRESHOLD` (config.py:29), the face default. -/
noncomputable def BIOMETRIC_THRESHOLD : ℝ := 0.6

/-- `FingerprintService.default_threshold` (fingerprint_service.py:24). -/
noncomputable def fingerprint_default_threshold : ℝ := 0.75

/-- Outcome of the external OpenCV pipeline for one extracted frame
(`detect_faces` + `extract_face_encoding` + `calculate_quality_score`,
biometric_service.py:78-163): no face detected, a face whose encoding
extraction returned `None`, or an extracted encoding with its quality
score.  Verification ignores the quality component. -/
inductive FrameResult
  | noFace
  | noEncoding
  | encoding (v : Vec) (quality : ℝ)

/-- `FingerprintService.extract_fingerprint_features`
(fingerprint_service.py:34-61): the SHA-256 digest of the raw bytes,
reinterpreted as a byte vector and scaled by `1/255`.  The digest is the
external `hashlib` collaborator, passed as `sha`. -/
noncomputable def extract_fingerprint_features (sha : Bytes → Bytes) (fingerprint_bytes : Bytes) : Vec :=
  (sha fingerprint_bytes).map (fun b => (b : ℝ) / 255)

/-- `FingerprintService._calculate_entropy` (fingerprint_service.py:104-121):
Shannon entropy of the byte-value histogram over 256 bins. -/
noncomputable def _calculate_entropy (data : Bytes) : ℝ :=
  ((List.range 256).map (fun v =>
    let p : ℝ := (data.count v : ℝ) / (data.length : ℝ)
    if 0 < p then -(p * Real.logb 2 p) else 0)).sum

/-- `FingerprintService.calculate_quality_score` (fingerprint_service.py:86-102):
average of a size score saturating at 10000 bytes and an entropy score
saturating at 8 bits. -/
noncomputable def calculate_quality_score (fingerprint_bytes : Bytes) : ℝ :=
  let size_score := min 1 ((fingerprint_bytes.length : ℝ) / 10000)
  let entropy_score := min 1 (_calculate_entropy fingerprint_bytes / 8)
  (size_score + entropy_score) / 2

/-- Fresh autoincrement primary key for a newly inserted row. -/
def freshId (ts : List BiometricTemplate) : Nat :=
  (ts.map (fun t => t.id)).foldr Nat.max 0 + 1

/-- The row predicate of the fingerprint queries
`user_id == uid AND biometric_type == FINGERPRINT AND is_active == True`
(fingerprint_service.py:144-148, 211-215, 294-298). -/
def isActiveFingerprintOf (uid : Nat) (t : BiometricTemplate) : Bool :=
  t.user_id == uid && t.biometric_type == BiometricType.FINGERPRINT && t.is_active

/-- The row predicate of the face verification query
`user_id == uid AND is_active == True` (biometric_service.py:283-286).
Note: the source has no modality filter here. -/
def isActiveTemplateOf (uid : Nat) (t : BiometricTemplate) : Bool :=
  t.user_id == uid && t.is_active

/-- `FingerprintService.enroll_fingerprint` (fingerprint_service.py:123-200).
`ser` is the numpy `tobytes` serialiser and `enc` the Fernet `encrypt_data`
collaborator; `payload = none` models a `b64decode` failure, which raises
`ValueError` and is reported by the outer `except`.  (`template_hash` stores
the digest of the serialised features; the hex spelling of the digest is not
modelled.)  All existing active fingerprint rows of the user are deactivated
before the new primary row is inserted. -/
noncomputable def enroll_fingerprint (ser : Vec → Bytes) (enc : Bytes → Bytes)
    (sha : Bytes → Bytes) (db : List BiometricTemplate) (uid : Nat)
    (payload : Option Bytes) : BiometricResult × List BiometricTemplate :=
  match payload with
  | none =>
      ({ success := false,
         message := "Fingerprint enrollment failed: Invalid fingerprint data format",
         face_detected := false }, db)
  | some fingerprint_bytes =>
      let features := extract_fingerprint_features sha fingerprint_bytes
      let quality := calculate_quality_score fingerprint_bytes
      let db1 := db.map (fun t => if isActiveFingerprintOf uid t then
            { t with is_active := false, is_primary := false } else t)
      let newT : BiometricTemplate :=
        { id := freshId db, user_id := uid,
          biometric_type := BiometricType.FINGERPRINT,
          template_data := enc (ser features),
          template_hash := sha (ser features),
          quality_score := quality, confidence_score := 0.95,
          is_active := true, is_primary := true }
      ({ success := true, message := "Fingerprint enrollment successful",
         face_detected := true, quality_score := some quality,
         template_id := some newT.id }, db1 ++ [newT])

/-- The comparison loop of `verify_fingerprint` (fingerprint_service.py:237-256),
iterating the queried rows in table order with their positions: `best_score`
starts at `0.0` and is replaced on strict improvement, remembering the
winning row and its position.  Rows not matched by the query are skipped. -/
noncomputable def fp_compare_loop (deser : Bytes → Vec) (dec : Bytes → Bytes)
    (input_features : Vec) (uid : Nat) :
    List BiometricTemplate → Nat → ℝ → Option (Nat × BiometricTemplate) →
    ℝ × Option (Nat × BiometricTemplate)
  | [], _, best, bt => (best, bt)
  | t :: ts, i, best, bt =>
      if isActiveFingerprintOf uid t then
        let s := calculate_fingerprint_similarity input_features (deser (dec t.template_data))
        if best < s then fp_compare_loop deser dec input_features uid ts (i+1) s (some (i, t))
        else fp_compare_loop deser dec input_features uid ts (i+1) best bt
      else fp_compare_loop deser dec input_features uid ts (i+1) best bt

/-- `FingerprintService.verify_fingerprint` (fingerprint_service.py:202-290).
`deser` is `np.frombuffer` and `dec` the Fernet `decrypt_data` collaborator. -/
noncomputable def verify_fingerprint (deser : Bytes → Vec) (dec : Bytes → Bytes)
    (sha : Bytes → Bytes) (now : Nat) (db : List BiometricTemplate) (uid : Nat)
    (threshold? : Option ℝ) (payload : Option Bytes) :
    BiometricResult × List BiometricTemplate :=
  let threshold := threshold?.getD fingerprint_default_threshold
  if (db.filter (isActiveFingerprintOf uid)).isEmpty then
    ({ success := false, message := "No fingerprint templates found for user",
       face_detected := false, threshold_used := some threshold }, db)
  else
    match payload with
    | none =>
        ({ success := false,
           message := "Fingerprint verification failed: Invalid fingerprint data format",
           face_detected := false, threshold_used := some threshold }, db)
    | some fingerprint_bytes =>
        let input_features := extract_fingerprint_features sha fingerprint_bytes
        let r := fp_compare_loop deser dec input_features uid db 0 0 none
        let ok : Bool := decide (threshold ≤ r.1)
        match r.2 with
        | some it =>
            let db' := if ok then
                db.set it.1 { it.2 with verification_count := it.2.verification_count + 1,
                                        last_used := some now }
              else db
            ({ success := ok,
               message := if ok then "Fingerprint verification successful"
                          else "Fingerprint verification failed",
               similarity_score := some r.1, threshold_used := some threshold,
               face_detected := true, template_id := some it.2.id }, db')
        | none =>
            ({ success := ok,
               message := if ok then "Fingerprint verification successful"
                          else "Fingerprint verification failed",
               similarity_score := some r.1, threshold_used := some threshold,
               face_detected := true, template_id := none }, db)

/-- One pass of the face comparison loop (biometric_service.py:323-342) for a
single extracted encoding: every queried row is decrypted and scored, and the
moment a score strictly improves the running best, that row has its usage
counters mutated in place — regardless of the eventual decision.  Rows not
matched by the verification query are skipped. -/
noncomputable def face_compare_pass (deser : Bytes → Vec) (dec : Bytes → Bytes)
    (encoding : Vec) (uid : Nat) (now : Nat) :
    List BiometricTemplate → ℝ → List BiometricTemplate × ℝ
  | [], best => ([], best)
  | t :: ts, best =>
      if isActiveTemplateOf uid t then
        let s := calculate_similarity (deser (dec t.template_data)) encoding
        if best < s then
          let r := face_compare_pass deser dec encoding uid now ts s
          ({ t with verification_count := t.verification_count + 1,
                    last_used := some now } :: r.1, r.2)
        else
          let r := face_compare_pass deser dec encoding uid now ts best
          (t :: r.1, r.2)
      else
        let r := face_compare_pass deser dec encoding uid now ts best
        (t :: r.1, r.2)

/-- The frame loop of `verify_biometric` (biometric_service.py:311-342):
frames with no detected face contribute nothing; frames with a face set
`face_detected` and, when an encoding was extracted, run a comparison pass. -/
noncomputable def face_frames_loop (deser : Bytes → Vec) (dec : Bytes → Bytes)
    (uid : Nat) (now : Nat) :
    List FrameResult → List BiometricTemplate → ℝ → Bool →
    List BiometricTemplate × ℝ × Bool
  | [], ts, best, fd => (ts, best, fd)
  | FrameResult.noFace :: fs, ts, best, fd => face_frames_loop deser dec uid now fs ts best fd
  | FrameResult.noEncoding :: fs, ts, best, fd => face_frames_loop deser dec uid now fs ts best true
  | FrameResult.encoding v _ :: fs, ts, best, fd =>
      let r := face_compare_pass deser dec v uid now ts best
      face_frames_loop deser dec uid now fs r.1 r.2 true

/-- `BiometricService.verify_biometric` (biometric_service.py:274-365).
`decoded = none` models a `b64decode` failure (`ValueError`, reported by the
outer `except`); `some frames` is the outcome of the external OpenCV frame
extraction and per-frame face pipeline.  Note that the source result carries
no `template_id`. -/
noncomputable def verify_biometric (deser : Bytes → Vec) (dec : Bytes → Bytes)
    (now : Nat) (db : List BiometricTemplate) (uid : Nat)
    (threshold? : Option ℝ) (decoded : Option (List FrameResult)) :
    BiometricResult × List BiometricTemplate :=
  let threshold := threshold?.getD BIOMETRIC_THRESHOLD
  if (db.filter (isActiveTemplateOf uid)).isEmpty then
    ({ success := false, message := "No biometric templates found for user",
       threshold_used := some threshold }, db)
  else
    match decoded with
    | none =>
        ({ success := false, message := "Verification failed: Invalid video data format",
           face_detected := false, threshold_used := some threshold }, db)
    | some frames =>
        if frames.isEmpty then
          ({ success := false, message := "No frames could be extracted from video",
             face_detected := false, threshold_used := some threshold }, db)
        else
          let r := face_frames_loop deser dec uid now frames db 0 false
          let ok : Bool := decide (threshold ≤ r.2.1)
          ({ success := ok,
             message := if ok then "Verification successful" else "Verification failed",
             similarity_score := some r.2.1, threshold_used := some threshold,
             face_detected := r.2.2 }, r.1)

/-- The best-quality selection loop of `enroll_biometric`
(biometric_service.py:182-201): keep the encoding with the strictly highest
quality among frames that yielded one. -/
noncomputable def select_best_encoding :
    List FrameResult → Option Vec → ℝ → Bool → Option Vec × ℝ × Bool
  | [], be, bq, fd => (be, bq, fd)
  | FrameResult.noFace :: fs, be, bq, fd => select_best_encoding fs be bq fd
  | FrameResult.noEncoding :: fs, be, bq, fd => select_best_encoding fs be bq true
  | FrameResult.encoding v q :: fs, be, bq, fd =>
      if bq < q then select_best_encoding fs (some v) q true
      else select_best_encoding fs be bq true

/-- `BiometricService.enroll_biometric` (biometric_service.py:165-254).
On success, the primary flag is cleared on every existing row of the user
with `is_primary == True` (the bulk `update` at 227-231, which is not scoped
to a modality), and the new row is inserted active and primary; its
`biometric_type` is the column default `FACE` (the source never sets it). -/
noncomputable def enroll_biometric (ser : Vec → Bytes) (enc : Bytes → Bytes)
    (sha : Bytes → Bytes) (db : List BiometricTemplate) (uid : Nat)
    (decoded : Option (List FrameResult)) : BiometricResult × List BiometricTemplate :=
  match decoded with
  | none =>
      ({ success := false, message := "Enrollment failed: Invalid video data format",
         face_detected := false }, db)
  | some frames =>
      if frames.isEmpty then
        ({ success := false, message := "No frames could be extracted from video",
           face_detected := false }, db)
      else
        let r := select_best_encoding frames none 0 false
        match r.1 with
        | none =>
            ({ success := false, message := "No valid face encoding could be extracted",
               face_detected := r.2.2, quality_score := some r.2.1 }, db)
        | some best_encoding =>
            let db1 := db.map (fun t => if t.user_id == uid && t.is_primary then
                  { t with is_primary := false } else t)
            let newT : BiometricTemplate :=
              { id := freshId db, user_id := uid,
                template_data := enc (ser best_encoding),
                template_hash := sha (ser best_encoding),
                quality_score := r.2.1, confidence_score := 0.9,
                is_active := true, is_primary := true }
            ({ success := true, message := "Biometric template enrolled successfully",
               face_detected := true, quality_score := some r.2.1,
               template_id := some newT.id }, db1 ++ [newT])

/-- Application state seen by the router: the template table plus each
user's `is_enrolled` flag (models/user.py:24). -/
structure AppState where
  templates : List BiometricTemplate
  is_enrolled : Nat → Bool

/-- `POST /biometric/enroll`, face branch (routers/biometric.py:41-113).
With `replace_existing`, every template row of the user — of any modality —
is deactivated first (49-62); on service success the user's `is_enrolled`
flag is set (99-102), but on failure it is left untouched. -/
noncomputable def router_enroll_face (ser : Vec → Bytes) (enc : Bytes → Bytes)
    (sha : Bytes → Bytes) (s : AppState) (uid : Nat) (replace_existing : Bool)
    (decoded : Option (List FrameResult)) : BiometricResult × AppState :=
  let ts0 := if replace_existing then
      s.templates.map (fun t => if t.user_id == uid then { t with is_active := false } else t)
    else s.templates
  let r := enroll_biometric ser enc sha ts0 uid decoded
  let enrolled := if r.1.success then
      (fun u => if u == uid then true else s.is_enrolled u)
    else s.is_enrolled
  (r.1, { templates := r.2, is_enrolled := enrolled })

/-- `POST /biometric/enroll`, fingerprint branch (routers/biometric.py:41-113).
With `replace_existing`, all fingerprint rows of the user are deleted
(`delete_user_fingerprint_templates`, fingerprint_service.py:300-318). -/
noncomputable def router_enroll_fingerprint (ser : Vec → Bytes) (enc : Bytes → Bytes)
    (sha : Bytes → Bytes) (s : AppState) (uid : Nat) (replace_existing : Bool)
    (payload : Option Bytes) : BiometricResult × AppState :=
  let ts0 := if replace_existing then
      s.templates.filter
        (fun t => !(t.user_id == uid && t.biometric_type == BiometricType.FINGERPRINT))
    else s.templates
  let r := enroll_fingerprint ser enc sha ts0 uid payload
  let enrolled := if r.1.success then
      (fun u => if u == uid then true else s.is_enrolled u)
    else s.is_enrolled
  (r.1, { templates := r.2, is_enrolled := enrolled })

/-- `BiometricService.delete_template` (biometric_service.py:373-390): the
first row matching `(id, user_id)` is deleted; `false` and no mutation when
none matches. -/
def delete_template (db : List BiometricTemplate) (template_id uid : Nat) :
    Bool × List BiometricTemplate :=
  match db.find? (fun t => t.id == template_id && t.user_id == uid) with
  | none => (false, db)
  | some _ => (true, db.eraseP (fun t => t.id == template_id && t.user_id == uid))

/-- `DELETE /biometric/templates/{id}` (routers/biometric.py:235-270): on
successful deletion, `is_enrolled` is recomputed from the remaining active
rows of the user. -/
def router_delete_template (s : AppState) (uid template_id : Nat) : Bool × AppState :=
  let r := delete_template s.templates template_id uid
  if r.1 = false then (false, s)
  else
    let active := (r.2.filter (fun t => t.user_id == uid)).filter (fun t => t.is_active)
    let enrolled := if active.isEmpty then
        (fun u => if u == uid then false else s.is_enrolled u)
      else s.is_enrolled
    (true, { templates := r.2, is_enrolled := enrolled })

/-- Mutate the first list element satisfying `p` (the Python scan mutates
the single row object it found). -/
def setFirst (p : α → Bool) (f : α → α) : List α → List α
  | [] => []
  | x :: xs => if p x then f x :: xs else x :: setFirst p f xs

/-- `POST /biometric/templates/{id}/set-primary` (routers/biometric.py:272-320):
reject an unknown or inactive target; otherwise clear `is_primary` on every
row of the user — any modality — and set it on the target row. -/
def set_primary_template (s : AppState) (uid template_id : Nat) : Bool × AppState :=
  match s.templates.find? (fun t => t.id == template_id && t.user_id == uid) with
  | none => (false, s)
  | some target =>
      if target.is_active = false then (false, s)
      else
        let cleared := s.templates.map
          (fun t => if t.user_id == uid then { t with is_primary := false } else t)
        let ts1 := setFirst (fun t => t.id == template_id && t.user_id == uid)
          (fun t => { t with is_primary := true }) cleared
        (true, { s with templates := ts1 })

/-- The operations of claim C3/C7: router-level enrollment (face or
fingerprint, with the optional replace-existing step) and set-primary. -/
inductive Op
  | enrollFace (uid : Nat) (replace_existing : Bool) (decoded : Option (List FrameResult))
  | enrollFingerprint (uid : Nat) (replace_existing : Bool) (payload : Option Bytes)
  | setPrimary (uid template_id : Nat)

noncomputable def applyOp (ser : Vec → Bytes) (enc : Bytes → Bytes) (sha : Bytes → Bytes)
    (s : AppState) : Op → AppState
  | Op.enrollFace uid r d => (router_enroll_face ser enc sha s uid r d).2
  | Op.enrollFingerprint uid r p => (router_enroll_fingerprint ser enc sha s uid r p).2
  | Op.setPrimary uid tid => (set_primary_template s uid tid).2

noncomputable def applyOps (ser : Vec → Bytes) (enc : Bytes → Bytes) (sha : Bytes → Bytes)
    (s : AppState) : List Op → AppState
  | [] => s
  | op :: ops => applyOps ser enc sha (applyOp ser enc sha s op) ops

/-- A row counted by Invariant A: active and primary for the given user and
modality. -/
def activePrimaryPred (uid : Nat) (bt : BiometricType) (t : BiometricTemplate) : Bool :=
  t.user_id == uid && t.biometric_type == bt && t.is_active && t.is_primary

def countActivePrimary (uid : Nat) (bt : BiometricType) (ts : List BiometricTemplate) : Nat :=
  (ts.filter (activePrimaryPred uid bt)).length

/-- Invariant A (spec §3): for every (user, modality), at most one active
template is primary. -/
def PrimaryInvariant (ts : List BiometricTemplate) : Prop :=
  ∀ uid bt, countActivePrimary uid bt ts ≤ 1

/-- C4: the similarity scorer is bounded and well-behaved — for equal-length
feature vectors both the face scorer and the fingerprint scorer lie in
`[0,1]`; both score `1` on a non-zero vector against itself; and both score
`0` when either vector is all-zero. -/
theorem similarity_scorers_bounded (a b : Vec) (_hlen : a.length = b.length) :
    (0 ≤ calculate_similarity a b ∧ calculate_similarity a b ≤ 1) ∧
    (0 ≤ calculate_fingerprint_similarity a b ∧
      calculate_fingerprint_similarity a b ≤ 1) ∧
    ((∃ x ∈ a, x ≠ 0) →
      calculate_similarity a a = 1 ∧ calculate_fingerprint_similarity a a = 1) ∧
    (((∀ x ∈ a, x = 0) ∨ (∀ x ∈ b, x = 0)) →
      calculate_similarity a b = 0 ∧ calculate_fingerprint_similarity a b = 0) := by
  refine ⟨⟨calculate_similarity_nonneg a b, calculate_similarity_le_one a b⟩,
    ⟨calculate_fingerprint_similarity_nonneg a b,
      calculate_fingerprint_similarity_le_one a b⟩,
    fun h => ⟨calculate_similarity_self h, calculate_fingerprint_similarity_self h⟩,
    fun h => ?_⟩
  rcases h with h | h
  · exact ⟨calculate_similarity_zero_left b h,
      calculate_fingerprint_similarity_zero_left b h⟩
  · exact ⟨calculate_similarity_zero_right a h,
      calculate_fingerprint_similarity_zero_right a h⟩

/-- Concrete witness for `similarity_scorers_bounded`. -/
theorem similarity_scorers_bounded_witness :
    (([(1 : ℝ), 0] : Vec).length = ([(0 : ℝ), 1] : Vec).length) ∧
    (0 ≤ calculate_similarity [(1 : ℝ), 0] [(0 : ℝ), 1] ∧
      calculate_similarity [(1 : ℝ), 0] [(0 : ℝ), 1] ≤ 1) :=
  ⟨rfl, (similarity_scorers_bounded [(1 : ℝ), 0] [(0 : ℝ), 1] rfl).1⟩

lemma length_filter_map_eq {α : Type} (p : α → Bool) (f : α → α) (ts : List α)
    (h : ∀ t ∈ ts, p (f t) = p t) :
    ((ts.map f).filter p).length = (ts.filter p).length := by
  induction ts with
  | nil => rfl
  | cons x xs ih =>
    have hx := h x (List.mem_cons_self x xs)
    have ih' := ih (fun t ht => h t (List.mem_cons_of_mem x ht))
    simp only [List.map_cons, List.filter_cons, hx]
    cases hpx : p x
    · simpa [hpx] using ih'
    · simpa [hpx] using ih'

lemma length_filter_map_zero {α : Type} (p : α → Bool) (f : α → α) (ts : List α)
    (h : ∀ t ∈ ts, p (f t) = false) : ((ts.map f).filter p).length = 0 := by
  induction ts with
  | nil => rfl
  | cons x xs ih =>
    simp only [List.map_cons, List.filter_cons, h x (List.mem_cons_self x xs)]
    simpa using ih (fun t ht => h t (List.mem_cons_of_mem x ht))

lemma length_filter_sublist {α : Type} (p : α → Bool) {l1 l2 : List α}
    (h : l1.Sublist l2) : (l1.filter p).length ≤ (l2.filter p).length :=
  (h.filter p).length_le

lemma length_filter_setFirst_le {α : Type} (p q : α → Bool) (f : α → α) (ts : List α) :
    ((setFirst q f ts).filter p).length ≤ (ts.filter p).length + 1 := by
  induction ts with
  | nil => simp [setFirst]
  | cons x xs ih =>
    cases hq : q x
    · simp only [setFirst, hq, if_neg, Bool.false_eq_true, if_false, List.filter_cons]
      cases hpx : p x
      · simpa using ih
      · simpa using Nat.succ_le_succ ih
    · simp only [setFirst, hq, if_true, List.filter_cons]
      cases hpf : p (f x) <;> cases hpx : p x <;> simp [hpf, hpx] <;> omega

lemma length_filter_setFirst_eq {α : Type} (p q : α → Bool) (f : α → α) (ts : List α)
    (h : ∀ t ∈ ts, q t = true → p (f t) = p t) :
    ((setFirst q f ts).filter p).length = (ts.filter p).length := by
  induction ts with
  | nil => rfl
  | cons x xs ih =>
    cases hq : q x
    · simp only [setFirst, hq, Bool.false_eq_true, if_false, List.filter_cons]
      cases hpx : p x
      · simpa [hpx] using ih (fun t ht hqt => h t (List.mem_cons_of_mem x ht) hqt)
      · simpa [hpx] using ih (fun t ht hqt => h t (List.mem_cons_of_mem x ht) hqt)
    · have hx := h x (List.mem_cons_self x xs) hq
      simp only [setFirst, hq, if_true, List.filter_cons, hx]
      cases hpx : p x <;> simp [hpx]

lemma countActivePrimary_append (uid : Nat) (bt : BiometricType)
    (l1 l2 : List BiometricTemplate) :
    countActivePrimary uid bt (l1 ++ l2) =
      countActivePrimary uid bt l1 + countActivePrimary uid bt l2 := by
  simp [countActivePrimary, List.filter_append]

lemma aPP_false_of_primary {t : BiometricTemplate} (uid : Nat) (bt : BiometricType)
    (h : t.is_primary = false) : activePrimaryPred uid bt t = false := by
  simp [activePrimaryPred, h]

lemma aPP_false_of_active {t : BiometricTemplate} (uid : Nat) (bt : BiometricType)
    (h : t.is_active = false) : activePrimaryPred uid bt t = false := by
  simp [activePrimaryPred, h]

lemma aPP_false_of_user {t : BiometricTemplate} {uid : Nat} (bt : BiometricType)
    (h : t.user_id ≠ uid) : activePrimaryPred uid bt t = false := by
  simp [activePrimaryPred, h]

/-- After the bulk primary-clearing `update` of `enroll_biometric`
(biometric_service.py:227-231), no row of the user is active-primary. -/
lemma clearPrimary_pred_self (uid : Nat) (bt : BiometricType) (t : BiometricTemplate) :
    activePrimaryPred uid bt
      (if t.user_id == uid && t.is_primary then { t with is_primary := false } else t)
      = false := by
  by_cases hc : (t.user_id == uid && t.is_primary) = true
  · rw [if_pos hc]
    exact aPP_false_of_primary uid bt rfl
  · rw [if_neg hc]
    cases hu : (t.user_id == uid) with
    | false => exact aPP_false_of_user bt (by simpa using hu)
    | true =>
      cases hp : t.is_primary with
      | false => exact aPP_false_of_primary uid bt hp
      | true => exact absurd (by rw [hu, hp]; rfl) hc

lemma clearPrimary_pred_other {uid uid' : Nat} (h : uid' ≠ uid) (bt : BiometricType)
    (t : BiometricTemplate) :
    activePrimaryPred uid' bt
      (if t.user_id == uid && t.is_primary then { t with is_primary := false } else t)
      = activePrimaryPred uid' bt t := by
  by_cases hc : (t.user_id == uid && t.is_primary) = true
  · rw [if_pos hc]
    have hu : t.user_id = uid := by
      have := ((Bool.and_eq_true _ _).mp hc).1
      simpa using this
    have hne : t.user_id ≠ uid' := by rw [hu]; exact fun e => h e.symm
    simp [activePrimaryPred, hne]
  · rw [if_neg hc]

lemma deactivateUser_pred_self (uid : Nat) (bt : BiometricType) (t : BiometricTemplate) :
    activePrimaryPred uid bt
      (if t.user_id == uid then { t with is_active := false } else t) = false := by
  by_cases hc : (t.user_id == uid) = true
  · rw [if_pos hc]
    exact aPP_false_of_active uid bt rfl
  · rw [if_neg hc]
    exact aPP_false_of_user bt (by simpa using hc)

lemma deactivateUser_pred_other {uid uid' : Nat} (h : uid' ≠ uid) (bt : BiometricType)
    (t : BiometricTemplate) :
    activePrimaryPred uid' bt
      (if t.user_id == uid then { t with is_active := false } else t)
      = activePrimaryPred uid' bt t := by
  by_cases hc : (t.user_id == uid) = true
  · rw [if_pos hc]
    have hne : t.user_id ≠ uid' := by
      have : t.user_id = uid := by simpa using hc
      rw [this]; exact fun e => h e.symm
    simp [activePrimaryPred, hne]
  · rw [if_neg hc]

lemma deactivateFP_pred_self (uid : Nat) (t : BiometricTemplate) :
    activePrimaryPred uid BiometricType.FINGERPRINT
      (if isActiveFingerprintOf uid t then
        { t with is_active := false, is_primary := false } else t) = false := by
  by_cases hc : isActiveFingerprintOf uid t = true
  · rw [if_pos hc]
    exact aPP_false_of_active uid _ rfl
  · rw [if_neg hc]
    unfold isActiveFingerprintOf at hc
    cases hu : (t.user_id == uid) with
    | false => exact aPP_false_of_user _ (by simpa using hu)
    | true =>
      cases hbt : (t.biometric_type == BiometricType.FINGERPRINT) with
      | false => simp [activePrimaryPred, show t.biometric_type ≠ BiometricType.FINGERPRINT by simpa using hbt]
      | true =>
        cases ha : t.is_active with
        | false => exact aPP_false_of_active uid _ ha
        | true => exact absurd (by rw [hu, hbt, ha]; rfl) hc

lemma deactivateFP_pred_other {uid uid' : Nat} {bt : BiometricType}
    (h : uid' ≠ uid ∨ bt ≠ BiometricType.FINGERPRINT) (t : BiometricTemplate) :
    activePrimaryPred uid' bt
      (if isActiveFingerprintOf uid t then
        { t with is_active := false, is_primary := false } else t)
      = activePrimaryPred uid' bt t := by
  by_cases hc : isActiveFingerprintOf uid t = true
  · rw [if_pos hc]
    unfold isActiveFingerprintOf at hc
    have hu : t.user_id = uid := by
      have := ((Bool.and_eq_true _ _).mp ((Bool.and_eq_true _ _).mp hc).1).1
      simpa using this
    have hbt : t.biometric_type = BiometricType.FINGERPRINT := by
      have := ((Bool.and_eq_true _ _).mp ((Bool.and_eq_true _ _).mp hc).1).2
      simpa using this
    rcases h with h | h
    · have hne : t.user_id ≠ uid' := by rw [hu]; exact fun e => h e.symm
      simp [activePrimaryPred, hne]
    · have hne : t.biometric_type ≠ bt := by rw [hbt]; exact fun e => h e.symm
      simp [activePrimaryPred, hne]
  · rw [if_neg hc]

lemma clearAllPrimary_pred_self (uid : Nat) (bt : BiometricType) (t : BiometricTemplate) :
    activePrimaryPred uid bt
      (if t.user_id == uid then { t with is_primary := false } else t) = false := by
  by_cases hc : (t.user_id == uid) = true
  · rw [if_pos hc]
    exact aPP_false_of_primary uid bt rfl
  · rw [if_neg hc]
    exact aPP_false_of_user bt (by simpa using hc)

lemma clearAllPrimary_pred_other {uid uid' : Nat} (h : uid' ≠ uid) (bt : BiometricType)
    (t : BiometricTemplate) :
    activePrimaryPred uid' bt
      (if t.user_id == uid then { t with is_primary := false } else t)
      = activePrimaryPred uid' bt t := by
  by_cases hc : (t.user_id == uid) = true
  · rw [if_pos hc]
    have hne : t.user_id ≠ uid' := by
      have : t.user_id = uid := by simpa using hc
      rw [this]; exact fun e => h e.symm
    simp [activePrimaryPred, hne]
  · rw [if_neg hc]

/-- Invariant A is preserved by deleting rows. -/
lemma primaryInvariant_filter (q : BiometricTemplate → Bool)
    {ts : List BiometricTemplate} (h : PrimaryInvariant ts) :
    PrimaryInvariant (ts.filter q) := by
  intro uid bt
  exact le_trans (length_filter_sublist _ (List.filter_sublist ts)) (h uid bt)

/-- Invariant A is preserved by the replace-existing deactivation of the
face enrollment route (routers/biometric.py:54-58). -/
lemma primaryInvariant_deactivate_user (uid : Nat) {ts : List BiometricTemplate}
    (h : PrimaryInvariant ts) :
    PrimaryInvariant (ts.map
      (fun t => if t.user_id == uid then { t with is_active := false } else t)) := by
  intro uid' bt
  unfold countActivePrimary
  by_cases huid : uid' = uid
  · subst huid
    rw [length_filter_map_zero _ _ _ (fun t _ => deactivateUser_pred_self uid' bt t)]
    omega
  · rw [length_filter_map_eq _ _ _ (fun t _ => deactivateUser_pred_other huid bt t)]
    exact h uid' bt

/-- Invariant A is preserved by `enroll_biometric`. -/
lemma primaryInvariant_enroll_biometric (ser : Vec → Bytes) (enc : Bytes → Bytes)
    (sha : Bytes → Bytes) (ts : List BiometricTemplate) (uid : Nat)
    (decoded : Option (List FrameResult)) (h : PrimaryInvariant ts) :
    PrimaryInvariant (enroll_biometric ser enc sha ts uid decoded).2 := by
  unfold enroll_biometric
  cases decoded with
  | none => exact h
  | some frames =>
    by_cases hf : frames.isEmpty
    · simp only [hf, if_true]
      exact h
    · simp only [hf, Bool.false_eq_true, if_false]
      cases hsel : (select_best_encoding frames none 0 false).1 with
      | none => simp only [hsel]; exact h
      | some best_encoding =>
        simp only [hsel]
        intro uid' bt
        rw [countActivePrimary_append]
        by_cases huid : uid' = uid
        · subst huid
          unfold countActivePrimary
          rw [length_filter_map_zero _ _ _ (fun t _ => clearPrimary_pred_self uid' bt t)]
          cases bt <;> simp [activePrimaryPred]
        · unfold countActivePrimary
          rw [length_filter_map_eq _ _ _ (fun t _ => clearPrimary_pred_other huid bt t)]
          have hnew : activePrimaryPred uid' bt
              ({ id := freshId ts, user_id := uid,
                 template_data := enc (ser best_encoding),
                 template_hash := sha (ser best_encoding),
                 quality_score := (select_best_encoding frames none 0 false).2.1,
                 confidence_score := 0.9, is_active := true, is_primary := true } :
                 BiometricTemplate) = false :=
            aPP_false_of_user bt (fun e => huid e.symm)
          simp only [List.filter_cons, hnew, Bool.false_eq_true, if_false,
            List.filter_nil, List.length_nil]
          simpa using h uid' bt

/-- Invariant A is preserved by `enroll_fingerprint`. -/
lemma primaryInvariant_enroll_fingerprint (ser : Vec → Bytes) (enc : Bytes → Bytes)
    (sha : Bytes → Bytes) (ts : List BiometricTemplate) (uid : Nat)
    (payload : Option Bytes) (h : PrimaryInvariant ts) :
    PrimaryInvariant (enroll_fingerprint ser enc sha ts uid payload).2 := by
  unfold enroll_fingerprint
  cases payload with
  | none => exact h
  | some fingerprint_bytes =>
    intro uid' bt
    rw [countActivePrimary_append]
    by_cases huid : uid' = uid
    · subst huid
      cases bt with
      | FINGERPRINT =>
        unfold countActivePrimary
        rw [length_filter_map_zero _ _ _ (fun t _ => deactivateFP_pred_self uid' t)]
        simp [activePrimaryPred]
      | FACE =>
        unfold countActivePrimary
        rw [length_filter_map_eq _ _ _
          (fun t _ => deactivateFP_pred_other (Or.inr (by simp)) t)]
        have hrest : ((List.filter (activePrimaryPred uid' BiometricType.FACE) ts)).length ≤ 1 :=
          h uid' BiometricType.FACE
        simp [activePrimaryPred] at hrest ⊢
        omega
    · unfold countActivePrimary
      rw [length_filter_map_eq _ _ _ (fun t _ => deactivateFP_pred_other (Or.inl huid) t)]
      have hrest : ((List.filter (activePrimaryPred uid' bt) ts)).length ≤ 1 := h uid' bt
      have hne : uid ≠ uid' := fun e => huid e.symm
      simp [activePrimaryPred, hne] at hrest ⊢
      omega

/-- Invariant A is preserved by the set-primary route. -/
lemma primaryInvariant_set_primary (s : AppState) (uid tid : Nat)
    (h : PrimaryInvariant s.templates) :
    PrimaryInvariant (set_primary_template s uid tid).2.templates := by
  unfold set_primary_template
  cases hf : s.templates.find? (fun t => t.id == tid && t.user_id == uid) with
  | none => exact h
  | some target =>
    dsimp only
    cases hato : target.is_active with
    | false =>
      rw [if_pos rfl]
      exact h
    | true =>
      rw [if_neg (fun e => Bool.noConfusion e)]
      dsimp only
      intro uid' bt
      unfold countActivePrimary
      by_cases huid : uid' = uid
      · subst huid
        have h0 : ((s.templates.map (fun t => if t.user_id == uid' then
            { t with is_primary := false } else t)).filter
            (activePrimaryPred uid' bt)).length = 0 :=
          length_filter_map_zero _ _ _ (fun t _ => clearAllPrimary_pred_self uid' bt t)
        have := length_filter_setFirst_le (activePrimaryPred uid' bt)
          (fun t => t.id == tid && t.user_id == uid')
          (fun t => { t with is_primary := true })
          (s.templates.map (fun t => if t.user_id == uid' then
            { t with is_primary := false } else t))
        omega
      · rw [length_filter_setFirst_eq _ _ _ _ ?congr]
        · rw [length_filter_map_eq _ _ _ (fun t _ => clearAllPrimary_pred_other huid bt t)]
          exact h uid' bt
        case congr =>
          intro t _ hqt
          have hu : t.user_id = uid := by
            have := ((Bool.and_eq_true _ _).mp hqt).2
            simpa using this
          have hne : t.user_id ≠ uid' := by rw [hu]; exact fun e => huid e.symm
          simp [activePrimaryPred, hne]

/-- C3: starting from a state satisfying Invariant A, any sequence of
router-level enroll (face or fingerprint, with or without
`replace_existing`) and set-primary operations preserves it: for every
(user, modality) at most one active template is primary. -/
theorem primary_uniqueness_preserved (ser : Vec → Bytes) (enc : Bytes → Bytes)
    (sha : Bytes → Bytes) (s : AppState) (ops : List Op)
    (h : PrimaryInvariant s.templates) :
    PrimaryInvariant (applyOps ser enc sha s ops).templates := by
  induction ops generalizing s with
  | nil => exact h
  | cons op ops ih =>
    apply ih
    cases op with
    | enrollFace uid replace decoded =>
      show PrimaryInvariant (router_enroll_face ser enc sha s uid replace decoded).2.templates
      unfold router_enroll_face
      apply primaryInvariant_enroll_biometric
      by_cases hr : replace
      · simp only [hr, if_true]
        exact primaryInvariant_deactivate_user uid h
      · simp only [hr, Bool.false_eq_true, if_false]
        exact h
    | enrollFingerprint uid replace payload =>
      show PrimaryInvariant
        (router_enroll_fingerprint ser enc sha s uid replace payload).2.templates
      unfold router_enroll_fingerprint
      apply primaryInvariant_enroll_fingerprint
      by_cases hr : replace
      · simp only [hr, if_true]
        exact primaryInvariant_filter _ h
      · simp only [hr, Bool.false_eq_true, if_false]
        exact h
    | setPrimary uid tid =>
      exact primaryInvariant_set_primary s uid tid h

/-- Concrete witness for `primary_uniqueness_preserved`. -/
theorem primary_uniqueness_preserved_witness :
    PrimaryInvariant ([] : List BiometricTemplate) ∧
    PrimaryInvariant (applyOps (fun _ => []) (fun b => b) (fun b => b)
      { templates := [], is_enrolled := fun _ => false }
      [Op.setPrimary 1 1]).templates :=
  have h0 : PrimaryInvariant ([] : List BiometricTemplate) := by
    intro uid bt
    simp [countActivePrimary]
  ⟨h0, primary_uniqueness_preserved (fun _ => []) (fun b => b) (fun b => b)
    { templates := [], is_enrolled := fun _ => false } [Op.setPrimary 1 1] h0⟩

/-- C7: the enrollment-flag invariant fails on the code.  Starting from a
consistent state (user 1 enrolled, one active face template), a
replace-existing face enrollment whose payload yields no usable encoding
deactivates every template of the user and then fails, leaving
`is_enrolled = true` with zero active templates: the router only updates the
flag on service success (routers/biometric.py:99-102) and never recomputes
it after the replace-existing deactivation (49-62). -/
theorem enrolled_flag_stale_after_failed_replace :
    ((router_enroll_face (fun _ => []) (fun b => b) (fun b => b)
        { templates := [{ id := 1, user_id := 1 }], is_enrolled := fun _ => true }
        1 true (some [FrameResult.noFace])).2.is_enrolled 1 = true) ∧
    ((router_enroll_face (fun _ => []) (fun b => b) (fun b => b)
        { templates := [{ id := 1, user_id := 1 }], is_enrolled := fun _ => true }
        1 true (some [FrameResult.noFace])).2.templates.filter
        (fun t => t.user_id == 1 && t.is_active) = []) := by
  constructor
  · simp [router_enroll_face, enroll_biometric, select_best_encoding]
  · simp [router_enroll_face, enroll_biometric, select_best_encoding]

lemma dot_pair (x1 x2 y1 y2 : ℝ) : dot [x1, x2] [y1, y2] = x1 * y1 + x2 * y2 := by
  simp [dot]

lemma linalg_norm_34 : linalg_norm [(3 : ℝ), 4] = 5 := by
  have h : dot [(3 : ℝ), 4] [(3 : ℝ), 4] = 25 := by rw [dot_pair]; norm_num
  rw [linalg_norm, h, show (25 : ℝ) = 5 ^ 2 by norm_num,
    Real.sqrt_sq (by norm_num : (0 : ℝ) ≤ 5)]

lemma linalg_norm_12m5 : linalg_norm [(12 : ℝ), -5] = 13 := by
  have h : dot [(12 : ℝ), -5] [(12 : ℝ), -5] = 169 := by rw [dot_pair]; norm_num
  rw [linalg_norm, h, show (169 : ℝ) = 13 ^ 2 by norm_num,
    Real.sqrt_sq (by norm_num : (0 : ℝ) ≤ 13)]

lemma sim_34_12m5 : calculate_similarity [(3 : ℝ), 4] [(12 : ℝ), -5] = 16 / 65 := by
  unfold calculate_similarity
  rw [if_neg (by simp), if_neg (by rw [linalg_norm_34, linalg_norm_12m5]; norm_num),
    linalg_norm_34, linalg_norm_12m5, dot_pair]
  norm_num

lemma sim_one_one : calculate_similarity [(1 : ℝ)] [(1 : ℝ)] = 1 :=
  calculate_similarity_self ⟨1, by simp, one_ne_zero⟩

/-- C1: usage recording does not follow the `record_use` contract on the
face path.  With one active face template whose stored vector decrypts to
`[3, 4]` and a verification payload with one frame encoding `[12, -5]`
(cosine similarity `16/65 < 0.6`), the decision is failure yet the
template's `verification_count` is incremented and `last_used` is set,
because `verify_biometric` mutates the counters inside the comparison loop
whenever the running best improves (biometric_service.py:333-338) and
commits unconditionally (344). -/
theorem face_verify_updates_counters_on_failure :
    ((verify_biometric (fun _ => [(3 : ℝ), 4]) (fun b => b) 5
        [{ id := 1, user_id := 1, template_data := [0] }] 1 none
        (some [FrameResult.encoding [(12 : ℝ), -5] 0])).1.success = false) ∧
    ((verify_biometric (fun _ => [(3 : ℝ), 4]) (fun b => b) 5
        [{ id := 1, user_id := 1, template_data := [0] }] 1 none
        (some [FrameResult.encoding [(12 : ℝ), -5] 0])).2 =
      [{ id := 1, user_id := 1, template_data := [0],
         verification_count := 1, last_used := some 5 }]) := by
  have h1 : (0 : ℝ) < 16 / 65 := by norm_num
  have h2 : ¬ (BIOMETRIC_THRESHOLD ≤ 16 / 65) := by unfold BIOMETRIC_THRESHOLD; norm_num
  constructor
  · simp [verify_biometric, face_frames_loop, face_compare_pass, isActiveTemplateOf,
      sim_34_12m5, h1, h2]
  · simp [verify_biometric, face_frames_loop, face_compare_pass, isActiveTemplateOf,
      sim_34_12m5, h1, h2]

/-- C2 fails as stated: the face verification query filters only on
`user_id` and `is_active` (biometric_service.py:283-286), so an active
*fingerprint* template is selected, decrypted and compared during *face*
verification — here it even wins the comparison and has its usage counters
mutated. -/
theorem face_verify_compares_fingerprint_template :
    ((verify_biometric (fun _ => [(1 : ℝ)]) (fun b => b) 5
        [{ id := 2, user_id := 1, biometric_type := BiometricType.FINGERPRINT,
           template_data := [0] }] 1 none
        (some [FrameResult.encoding [(1 : ℝ)] 0])).2 =
      [{ id := 2, user_id := 1, biometric_type := BiometricType.FINGERPRINT,
         template_data := [0], verification_count := 1, last_used := some 5 }]) ∧
    (BiometricType.FINGERPRINT ≠ BiometricType.FACE) := by
  have h1 : (0 : ℝ) < 1 := by norm_num
  constructor
  · simp [verify_biometric, face_frames_loop, face_compare_pass, isActiveTemplateOf,
      sim_one_one, h1]
  · simp

/-- C2 (amended): the fingerprint path selects exactly the active
fingerprint templates of the user, while the face path selects every active
template of the user regardless of modality; inactive templates are never
selected by either query. -/
theorem verification_candidates_characterized (ts : List BiometricTemplate)
    (uid : Nat) (t : BiometricTemplate) :
    (t ∈ ts.filter (isActiveTemplateOf uid) ↔
      t ∈ ts ∧ t.user_id = uid ∧ t.is_active = true) ∧
    (t ∈ ts.filter (isActiveFingerprintOf uid) ↔
      t ∈ ts ∧ t.user_id = uid ∧ t.biometric_type = BiometricType.FINGERPRINT ∧
        t.is_active = true) := by
  constructor
  · simp [List.mem_filter, isActiveTemplateOf, and_assoc]
  · simp [List.mem_filter, isActiveFingerprintOf, and_assoc]

/-- C9 fails as stated on the face path: a successful face verification
returns no `template_id` at all (the result constructed at
biometric_service.py:349-356 omits it), so the winning template is not
identified. -/
theorem face_verify_success_has_no_template_id :
    ((verify_biometric (fun _ => [(1 : ℝ)]) (fun b => b) 5
        [{ id := 1, user_id := 1, template_data := [0] }] 1 none
        (some [FrameResult.encoding [(1 : ℝ)] 0])).1.success = true) ∧
    ((verify_biometric (fun _ => [(1 : ℝ)]) (fun b => b) 5
        [{ id := 1, user_id := 1, template_data := [0] }] 1 none
        (some [FrameResult.encoding [(1 : ℝ)] 0])).1.template_id = none) := by
  have h1 : (0 : ℝ) < 1 := by norm_num
  have h2 : BIOMETRIC_THRESHOLD ≤ 1 := by unfold BIOMETRIC_THRESHOLD; norm_num
  constructor
  · simp [verify_biometric, face_frames_loop, face_compare_pass, isActiveTemplateOf,
      sim_one_one, h1, h2]
  · simp [verify_biometric, face_frames_loop, face_compare_pass, isActiveTemplateOf,
      sim_one_one, h1, h2]

/-- C6 fails as stated on the face path: the no-template check counts active
templates of *any* modality, so a user with zero active face templates but
one active fingerprint template does not get the no-templates rejection —
here (threshold override `0`, a frame with no detected face) face
verification even returns `success = true`. -/
theorem face_verify_ignores_modality_in_no_template_check :
    ((verify_biometric (fun _ => []) (fun b => b) 0
        [{ id := 2, user_id := 1, biometric_type := BiometricType.FINGERPRINT }] 1
        (some 0) (some [FrameResult.noFace])).1.success = true) ∧
    (List.filter (fun t : BiometricTemplate => t.user_id == 1 &&
        t.biometric_type == BiometricType.FACE && t.is_active)
      [{ id := 2, user_id := 1, biometric_type := BiometricType.FINGERPRINT }] = []) := by
  have h0 : (0 : ℝ) ≤ 0 := le_refl 0
  constructor
  · simp [verify_biometric, face_frames_loop, isActiveTemplateOf, h0]
  · simp

/-- C6 (amended): when the user has zero active *fingerprint* templates the
fingerprint path fails closed with the no-templates message, and when the
user has zero active templates of *any* modality the face path fails closed
with its no-templates message; in both cases for every payload and
threshold, with no template state mutated. -/
theorem no_templates_fails_closed (deser : Bytes → Vec) (dec sha : Bytes → Bytes)
    (now : Nat) (db : List BiometricTemplate) (uid : Nat) (thr : Option ℝ)
    (decoded : Option (List FrameResult)) (payload : Option Bytes) :
    (db.filter (isActiveTemplateOf uid) = [] →
      (verify_biometric deser dec now db uid thr decoded).1.success = false ∧
      (verify_biometric deser dec now db uid thr decoded).1.message =
        "No biometric templates found for user" ∧
      (verify_biometric deser dec now db uid thr decoded).2 = db) ∧
    (db.filter (isActiveFingerprintOf uid) = [] →
      (verify_fingerprint deser dec sha now db uid thr payload).1.success = false ∧
      (verify_fingerprint deser dec sha now db uid thr payload).1.message =
        "No fingerprint templates found for user" ∧
      (verify_fingerprint deser dec sha now db uid thr payload).2 = db) := by
  constructor
  · intro hface
    simp [verify_biometric, hface]
  · intro hfp
    simp [verify_fingerprint, hfp]

/-- Concrete witness for `no_templates_fails_closed`, exercising the
fingerprint conclusion for a user who *does* have an active face template
but zero active fingerprint templates. -/
theorem no_templates_fails_closed_witness :
    (List.filter (isActiveFingerprintOf 1)
      [({ id := 1, user_id := 1 } : BiometricTemplate)] = []) ∧
    ((verify_fingerprint (fun _ => []) (fun b => b) (fun b => b) 0
        [({ id := 1, user_id := 1 } : BiometricTemplate)] 1 none
        none).1.success = false) ∧
    ((verify_fingerprint (fun _ => []) (fun b => b) (fun b => b) 0
        [({ id := 1, user_id := 1 } : BiometricTemplate)] 1 none
        none).1.message = "No fingerprint templates found for user") :=
  ⟨rfl,
    ((no_templates_fails_closed (fun _ => []) (fun b => b) (fun b => b) 0
      [{ id := 1, user_id := 1 }] 1 none none none).2 rfl).1,
    ((no_templates_fails_closed (fun _ => []) (fun b => b) (fun b => b) 0
      [{ id := 1, user_id := 1 }] 1 none none none).2 rfl).2.1⟩

/-- C8: the effective threshold reported in the result is the caller
override when given, else the modality default (0.6 face, 0.75 fingerprint),
on every return path; and whenever the comparison stage is reached the
decision is success exactly when the best score reaches that threshold. -/
theorem effective_threshold_and_decision (deser : Bytes → Vec) (dec sha : Bytes → Bytes)
    (now : Nat) (db : List BiometricTemplate) (uid : Nat) (thr : Option ℝ)
    (frames : List FrameResult) (bytes : Bytes)
    (hface : (db.filter (isActiveTemplateOf uid)).isEmpty = false)
    (hfr : frames.isEmpty = false)
    (hfp : (db.filter (isActiveFingerprintOf uid)).isEmpty = false) :
    (∀ d : Option (List FrameResult),
      (verify_biometric deser dec now db uid thr d).1.threshold_used =
        some (thr.getD BIOMETRIC_THRESHOLD)) ∧
    (∀ p : Option Bytes,
      (verify_fingerprint deser dec sha now db uid thr p).1.threshold_used =
        some (thr.getD fingerprint_default_threshold)) ∧
    (∃ b, (verify_biometric deser dec now db uid thr (some frames)).1.similarity_score =
        some b ∧
      ((verify_biometric deser dec now db uid thr (some frames)).1.success = true ↔
        thr.getD BIOMETRIC_THRESHOLD ≤ b)) ∧
    (∃ b, (verify_fingerprint deser dec sha now db uid thr (some bytes)).1.similarity_score =
        some b ∧
      ((verify_fingerprint deser dec sha now db uid thr (some bytes)).1.success = true ↔
        thr.getD fingerprint_default_threshold ≤ b)) := by
  refine ⟨?_, ?_, ?_, ?_⟩
  · intro d
    unfold verify_biometric
    split
    · rfl
    · cases d with
      | none => rfl
      | some fr =>
        dsimp only
        split
        · rfl
        · rfl
  · intro p
    unfold verify_fingerprint
    split
    · rfl
    · cases p with
      | none => rfl
      | some b =>
        dsimp only
        split
        · rfl
        · rfl
  · simp only [verify_biometric, hface, hfr, Bool.false_eq_true, if_false]
    exact ⟨_, rfl, by simp⟩
  · simp only [verify_fingerprint, hfp, Bool.false_eq_true, if_false]
    cases hw : (fp_compare_loop deser dec (extract_fingerprint_features sha bytes)
        uid db 0 0 none).2 with
    | none => simp only [hw]; exact ⟨_, rfl, by simp⟩
    | some it => simp only [hw]; exact ⟨_, rfl, by simp⟩

/-- Concrete witness for `effective_threshold_and_decision`. -/
theorem effective_threshold_and_decision_witness :
    ((List.filter (isActiveTemplateOf 1)
        [({ id := 1, user_id := 1 } : BiometricTemplate),
         ({ id := 2, user_id := 1, biometric_type := BiometricType.FINGERPRINT } :
          BiometricTemplate)]).isEmpty = false) ∧
    (([FrameResult.noFace] : List FrameResult).isEmpty = false) ∧
    ((List.filter (isActiveFingerprintOf 1)
        [({ id := 1, user_id := 1 } : BiometricTemplate),
         ({ id := 2, user_id := 1, biometric_type := BiometricType.FINGERPRINT } :
          BiometricTemplate)]).isEmpty = false) ∧
    ((verify_biometric (fun _ => []) (fun b => b) 0
        [({ id := 1, user_id := 1 } : BiometricTemplate),
         ({ id := 2, user_id := 1, biometric_type := BiometricType.FINGERPRINT } :
          BiometricTemplate)] 1 none
        none).1.threshold_used = some BIOMETRIC_THRESHOLD) :=
  ⟨rfl, rfl, rfl,
    (effective_threshold_and_decision (fun _ => []) (fun b => b) (fun b => b) 0
      [{ id := 1, user_id := 1 },
       { id := 2, user_id := 1, biometric_type := BiometricType.FINGERPRINT }]
      1 none [FrameResult.noFace] [] rfl rfl (by rfl)).1 none⟩

/-- When no frame yields an encoding, the face frame loop leaves the rows
and the running best untouched. -/
lemma face_frames_loop_no_encoding (deser : Bytes → Vec) (dec : Bytes → Bytes)
    (uid now : Nat) (fs : List FrameResult) (ts : List BiometricTemplate)
    (best : ℝ) (fd : Bool)
    (h : ∀ f ∈ fs, ∀ v q, f ≠ FrameResult.encoding v q) :
    (face_frames_loop deser dec uid now fs ts best fd).1 = ts ∧
    (face_frames_loop deser dec uid now fs ts best fd).2.1 = best := by
  revert h fd
  induction fs with
  | nil => intro fd h; exact ⟨rfl, rfl⟩
  | cons f fs ih =>
    intro fd h
    cases f with
    | noFace => exact ih fd (fun g hg => h g (List.mem_cons_of_mem _ hg))
    | noEncoding => exact ih true (fun g hg => h g (List.mem_cons_of_mem _ hg))
    | encoding v q => exact absurd rfl (h _ (List.mem_cons_self _ _) v q)

/-- C10: when frames are extracted but no frame yields a usable encoding,
face verification does not report an extraction miss: it proceeds to the
threshold decision with best score `0.0`, succeeding exactly when the
effective threshold is `≤ 0`, with no template state mutated. -/
theorem face_no_encoding_scores_zero (deser : Bytes → Vec) (dec : Bytes → Bytes)
    (now : Nat) (db : List BiometricTemplate) (uid : Nat) (thr : Option ℝ)
    (frames : List FrameResult)
    (hne : (db.filter (isActiveTemplateOf uid)).isEmpty = false)
    (hfr : frames.isEmpty = false)
    (hnoenc : ∀ f ∈ frames, ∀ v q, f ≠ FrameResult.encoding v q) :
    (verify_biometric deser dec now db uid thr (some frames)).1.similarity_score =
      some 0 ∧
    (verify_biometric deser dec now db uid thr (some frames)).1.success =
      decide (thr.getD BIOMETRIC_THRESHOLD ≤ 0) ∧
    (verify_biometric deser dec now db uid thr (some frames)).2 = db ∧
    ((verify_biometric deser dec now db uid thr (some frames)).1.message =
        "Verification successful" ∨
     (verify_biometric deser dec now db uid thr (some frames)).1.message =
        "Verification failed") := by
  obtain ⟨hts, hbest⟩ :=
    face_frames_loop_no_encoding deser dec uid now frames db 0 false hnoenc
  simp only [verify_biometric, hne, hfr, Bool.false_eq_true, if_false]
  refine ⟨by rw [hbest], by rw [hbest], by rw [hts], ?_⟩
  split
  · exact Or.inl rfl
  · exact Or.inr rfl

/-- Concrete witness for `face_no_encoding_scores_zero`: with an explicit
threshold `0`, a payload whose single frame has no detected face verifies
successfully with similarity `0.0`. -/
theorem face_no_encoding_scores_zero_witness :
    (([FrameResult.noFace] : List FrameResult).isEmpty = false) ∧
    ((verify_biometric (fun _ => []) (fun b => b) 0
        [({ id := 1, user_id := 1 } : BiometricTemplate)] 1 (some 0)
        (some [FrameResult.noFace])).1.similarity_score = some 0) ∧
    ((verify_biometric (fun _ => []) (fun b => b) 0
        [({ id := 1, user_id := 1 } : BiometricTemplate)] 1 (some 0)
        (some [FrameResult.noFace])).1.success = true) := by
  have hno : ∀ f ∈ ([FrameResult.noFace] : List FrameResult), ∀ v q,
      f ≠ FrameResult.encoding v q := by
    intro f hf v q
    rcases List.mem_singleton.mp hf with rfl
    exact fun e => FrameResult.noConfusion e
  have h := face_no_encoding_scores_zero (fun _ => []) (fun b => b) 0
    [{ id := 1, user_id := 1 }] 1 (some 0) [FrameResult.noFace] rfl rfl hno
  exact ⟨rfl, h.1, h.2.1.trans (decide_eq_true (le_refl (0 : ℝ)))⟩

/-- The running best of the fingerprint comparison loop never decreases. -/
lemma fp_loop_ge (deser : Bytes → Vec) (dec : Bytes → Bytes) (input : Vec) (uid : Nat) :
    ∀ (ts : List BiometricTemplate) (i : Nat) (best : ℝ)
      (bt : Option (Nat × BiometricTemplate)),
      best ≤ (fp_compare_loop deser dec input uid ts i best bt).1 := by
  intro ts
  induction ts with
  | nil => intro i best bt; exact le_refl _
  | cons t ts ih =>
    intro i best bt
    simp only [fp_compare_loop]
    by_cases hc : isActiveFingerprintOf uid t = true
    · rw [if_pos hc]
      by_cases hlt : best <
          calculate_fingerprint_similarity input (deser (dec t.template_data))
      · rw [if_pos hlt]
        exact le_trans (le_of_lt hlt) (ih _ _ _)
      · rw [if_neg hlt]
        exact ih _ _ _
    · rw [if_neg hc]
      exact ih _ _ _

/-- The final best of the fingerprint comparison loop dominates the score of
every queried row. -/
lemma fp_loop_max (deser : Bytes → Vec) (dec : Bytes → Bytes) (input : Vec) (uid : Nat) :
    ∀ (ts : List BiometricTemplate) (i : Nat) (best : ℝ)
      (bt : Option (Nat × BiometricTemplate)),
      ∀ t ∈ ts, isActiveFingerprintOf uid t = true →
        calculate_fingerprint_similarity input (deser (dec t.template_data)) ≤
          (fp_compare_loop deser dec input uid ts i best bt).1 := by
  intro ts
  induction ts with
  | nil => intro i best bt t ht; exact absurd ht (List.not_mem_nil t)
  | cons u ts ih =>
    intro i best bt t ht hact
    rcases List.mem_cons.mp ht with rfl | hmem
    · simp only [fp_compare_loop]
      rw [if_pos hact]
      by_cases hlt : best <
          calculate_fingerprint_similarity input (deser (dec t.template_data))
      · rw [if_pos hlt]
        exact fp_loop_ge deser dec input uid ts _ _ _
      · rw [if_neg hlt]
        exact le_trans (not_lt.mp hlt) (fp_loop_ge deser dec input uid ts _ _ _)
    · simp only [fp_compare_loop]
      by_cases hc : isActiveFingerprintOf uid u = true
      · rw [if_pos hc]
        by_cases hlt : best <
            calculate_fingerprint_similarity input (deser (dec u.template_data))
        · rw [if_pos hlt]
          exact ih _ _ _ t hmem hact
        · rw [if_neg hlt]
          exact ih _ _ _ t hmem hact
      · rw [if_neg hc]
        exact ih _ _ _ t hmem hact

/-- Soundness of the remembered winner: either the loop never improved on
the initial pair, or the remembered row is one of the queried rows and its
score is exactly the final best. -/
lemma fp_loop_winner (deser : Bytes → Vec) (dec : Bytes → Bytes) (input : Vec) (uid : Nat) :
    ∀ (ts : List BiometricTemplate) (i : Nat) (best : ℝ)
      (bt : Option (Nat × BiometricTemplate)),
      ((fp_compare_loop deser dec input uid ts i best bt).2 = bt ∧
       (fp_compare_loop deser dec input uid ts i best bt).1 = best) ∨
      (∃ j t, (fp_compare_loop deser dec input uid ts i best bt).2 = some (j, t) ∧
        t ∈ ts ∧ isActiveFingerprintOf uid t = true ∧
        calculate_fingerprint_similarity input (deser (dec t.template_data)) =
          (fp_compare_loop deser dec input uid ts i best bt).1) := by
  intro ts
  induction ts with
  | nil => intro i best bt; exact Or.inl ⟨rfl, rfl⟩
  | cons u ts ih =>
    intro i best bt
    simp only [fp_compare_loop]
    by_cases hc : isActiveFingerprintOf uid u = true
    · rw [if_pos hc]
      by_cases hlt : best <
          calculate_fingerprint_similarity input (deser (dec u.template_data))
      · rw [if_pos hlt]
        rcases ih (i + 1)
            (calculate_fingerprint_similarity input (deser (dec u.template_data)))
            (some (i, u)) with ⟨h2, h1⟩ | ⟨j, t, h2, hm, ha, hs⟩
        · exact Or.inr ⟨i, u, h2, List.mem_cons_self u ts, hc, h1.symm⟩
        · exact Or.inr ⟨j, t, h2, List.mem_cons_of_mem u hm, ha, hs⟩
      · rw [if_neg hlt]
        rcases ih (i + 1) best bt with h | ⟨j, t, h2, hm, ha, hs⟩
        · exact Or.inl h
        · exact Or.inr ⟨j, t, h2, List.mem_cons_of_mem u hm, ha, hs⟩
    · rw [if_neg hc]
      rcases ih (i + 1) best bt with h | ⟨j, t, h2, hm, ha, hs⟩
      · exact Or.inl h
      · exact Or.inr ⟨j, t, h2, List.mem_cons_of_mem u hm, ha, hs⟩

/-- C9 (amended): face verification never reports a `template_id`; the
fingerprint result carries `template_id = none` (best score `0.0`, no
comparison strictly improved it) or the id of a queried row whose score is
the maximum over all queried rows. -/
theorem winner_template_id_identified (deser : Bytes → Vec) (dec sha : Bytes → Bytes)
    (now : Nat) (db : List BiometricTemplate) (uid : Nat) (thr : Option ℝ)
    (bytes : Bytes)
    (hfp : (db.filter (isActiveFingerprintOf uid)).isEmpty = false) :
    (∀ (deser2 : Bytes → Vec) (dec2 : Bytes → Bytes) (now2 : Nat)
       (db2 : List BiometricTemplate) (uid2 : Nat) (thr2 : Option ℝ)
       (d : Option (List FrameResult)),
       (verify_biometric deser2 dec2 now2 db2 uid2 thr2 d).1.template_id = none) ∧
    (((verify_fingerprint deser dec sha now db uid thr (some bytes)).1.template_id =
        none ∧
      (verify_fingerprint deser dec sha now db uid thr (some bytes)).1.similarity_score =
        some 0) ∨
     (∃ t, (verify_fingerprint deser dec sha now db uid thr (some bytes)).1.template_id =
        some t.id ∧
       t ∈ db ∧ isActiveFingerprintOf uid t = true ∧
       (verify_fingerprint deser dec sha now db uid thr (some bytes)).1.similarity_score =
         some (calculate_fingerprint_similarity (extract_fingerprint_features sha bytes)
           (deser (dec t.template_data))) ∧
       (∀ u ∈ db, isActiveFingerprintOf uid u = true →
         calculate_fingerprint_similarity (extract_fingerprint_features sha bytes)
             (deser (dec u.template_data)) ≤
           calculate_fingerprint_similarity (extract_fingerprint_features sha bytes)
             (deser (dec t.template_data))))) := by
  constructor
  · intro deser2 dec2 now2 db2 uid2 thr2 d
    unfold verify_biometric
    split
    · rfl
    · cases d with
      | none => rfl
      | some fr =>
        dsimp only
        split
        · rfl
        · rfl
  · simp only [verify_fingerprint, hfp, Bool.false_eq_true, if_false]
    rcases fp_loop_winner deser dec (extract_fingerprint_features sha bytes) uid
        db 0 0 none with ⟨h2, h1⟩ | ⟨j, t, h2, hm, ha, hs⟩
    · rw [h2, h1]
      exact Or.inl ⟨rfl, rfl⟩
    · rw [h2]
      refine Or.inr ⟨t, rfl, hm, ha, by rw [hs], ?_⟩
      intro u hu hau
      rw [hs]
      exact fp_loop_max deser dec (extract_fingerprint_features sha bytes) uid
        db 0 0 none u hu hau

/-- Concrete witness for `winner_template_id_identified`. -/
theorem winner_template_id_identified_witness :
    ((List.filter (isActiveFingerprintOf 1)
        [({ id := 7, user_id := 1, biometric_type := BiometricType.FINGERPRINT } :
          BiometricTemplate)]).isEmpty = false) ∧
    ((verify_biometric (fun _ => []) (fun b => b) 0 [] 1 none none).1.template_id =
      none) :=
  ⟨rfl,
    (winner_template_id_identified (fun _ => []) (fun b => b) (fun b => b) 0
      [{ id := 7, user_id := 1, biometric_type := BiometricType.FINGERPRINT }]
      1 none [] rfl).1 (fun _ => []) (fun b => b) 0 [] 1 none none⟩

/-- A row touched by the deactivation pass of `enroll_fingerprint` is never
an active fingerprint row of the user afterwards. -/
lemma deactivateFP_not_candidate (uid : Nat) (t : BiometricTemplate) :
    isActiveFingerprintOf uid
      (if isActiveFingerprintOf uid t then
        { t with is_active := false, is_primary := false } else t) = false := by
  by_cases hc : isActiveFingerprintOf uid t = true
  · rw [if_pos hc]
    simp [isActiveFingerprintOf]
  · rw [if_neg hc]
    simpa using hc

/-- Rows rejected by the fingerprint query are skipped by the comparison
loop without changing its state. -/
lemma fp_loop_skip (deser : Bytes → Vec) (dec : Bytes → Bytes) (input : Vec) (uid : Nat) :
    ∀ (l1 l2 : List BiometricTemplate) (i : Nat) (best : ℝ)
      (bt : Option (Nat × BiometricTemplate)),
      (∀ t ∈ l1, isActiveFingerprintOf uid t = false) →
      fp_compare_loop deser dec input uid (l1 ++ l2) i best bt =
        fp_compare_loop deser dec input uid l2 (i + l1.length) best bt := by
  intro l1
  induction l1 with
  | nil => intro l2 i best bt _; simp
  | cons u l1 ih =>
    intro l2 i best bt h
    have hu : isActiveFingerprintOf uid u = false := h u (List.mem_cons_self u l1)
    simp only [List.cons_append, fp_compare_loop]
    rw [if_neg (by simp [hu])]
    simp only [List.append_eq]
    rw [ih l2 (i + 1) best bt (fun t ht => h t (List.mem_cons_of_mem _ ht))]
    rw [show i + 1 + l1.length = i + (u :: l1).length by simp; omega]

/-- C5: enrolling a fingerprint sample and then verifying with the identical
sample under the default threshold succeeds with similarity `1`, for any
user and any starting table, whenever the digest-derived feature vector is
non-zero and the serialise/encrypt collaborators round-trip on it. -/
theorem fingerprint_enroll_verify_roundtrip (ser : Vec → Bytes)
    (enc dec sha : Bytes → Bytes) (deser : Bytes → Vec) (now : Nat)
    (db : List BiometricTemplate) (uid : Nat) (bytes : Bytes)
    (hdec : dec (enc (ser (extract_fingerprint_features sha bytes))) =
      ser (extract_fingerprint_features sha bytes))
    (hdeser : deser (ser (extract_fingerprint_features sha bytes)) =
      extract_fingerprint_features sha bytes)
    (hnz : ∃ x ∈ extract_fingerprint_features sha bytes, x ≠ 0) :
    (enroll_fingerprint ser enc sha db uid (some bytes)).1.success = true ∧
    (verify_fingerprint deser dec sha now
        (enroll_fingerprint ser enc sha db uid (some bytes)).2 uid none
        (some bytes)).1.success = true ∧
    (verify_fingerprint deser dec sha now
        (enroll_fingerprint ser enc sha db uid (some bytes)).2 uid none
        (some bytes)).1.threshold_used = some fingerprint_default_threshold ∧
    (verify_fingerprint deser dec sha now
        (enroll_fingerprint ser enc sha db uid (some bytes)).2 uid none
        (some bytes)).1.similarity_score = some 1 ∧
    fingerprint_default_threshold ≤ 1 := by
  have hthr : fingerprint_default_threshold ≤ 1 := by
    unfold fingerprint_default_threshold; norm_num
  have hone : (0 : ℝ) < 1 := by norm_num
  refine ⟨rfl, ?_⟩
  set features := extract_fingerprint_features sha bytes with hfdef
  set newT : BiometricTemplate :=
    { id := freshId db, user_id := uid,
      biometric_type := BiometricType.FINGERPRINT,
      template_data := enc (ser features),
      template_hash := sha (ser features),
      quality_score := calculate_quality_score bytes, confidence_score := 0.95,
      is_active := true, is_primary := true } with hnewT
  have hdb2 : (enroll_fingerprint ser enc sha db uid (some bytes)).2 =
      (db.map (fun t => if isActiveFingerprintOf uid t then
        { t with is_active := false, is_primary := false } else t)) ++ [newT] := rfl
  have hnewcand : isActiveFingerprintOf uid newT = true := by
    simp [isActiveFingerprintOf, hnewT]
  have hmapfalse : ∀ t ∈ db.map (fun t => if isActiveFingerprintOf uid t then
      { t with is_active := false, is_primary := false } else t),
      isActiveFingerprintOf uid t = false := by
    intro t ht
    rcases List.mem_map.mp ht with ⟨t0, _, rfl⟩
    exact deactivateFP_not_candidate uid t0
  have hfilter : ((enroll_fingerprint ser enc sha db uid (some bytes)).2.filter
      (isActiveFingerprintOf uid)).isEmpty = false := by
    rw [hdb2, List.filter_append]
    have h1 : (db.map (fun t => if isActiveFingerprintOf uid t then
        { t with is_active := false, is_primary := false } else t)).filter
        (isActiveFingerprintOf uid) = [] := by
      rw [List.filter_eq_nil_iff]
      intro t ht
      simp [hmapfalse t ht]
    rw [h1, List.nil_append, List.filter_cons, if_pos hnewcand]
    rfl
  have hsim : calculate_fingerprint_similarity features
      (deser (dec newT.template_data)) = 1 := by
    show calculate_fingerprint_similarity features (deser (dec (enc (ser features)))) = 1
    rw [hdec, hdeser]
    exact calculate_fingerprint_similarity_self hnz
  have hloop : fp_compare_loop deser dec features uid
      ((enroll_fingerprint ser enc sha db uid (some bytes)).2) 0 0 none =
      (1, some (0 + (db.map (fun t => if isActiveFingerprintOf uid t then
        { t with is_active := false, is_primary := false } else t)).length, newT)) := by
    rw [hdb2, fp_loop_skip deser dec features uid _ [newT] 0 0 none hmapfalse]
    simp only [fp_compare_loop]
    rw [if_pos hnewcand, if_pos (by rw [hsim]; exact hone)]
    rw [hsim]
  have hok : decide (fingerprint_default_threshold ≤ (1 : ℝ)) = true :=
    decide_eq_true hthr
  simp only [verify_fingerprint, hfilter, Bool.false_eq_true, if_false]
  rw [← hfdef]
  rw [hloop]
  simp only [Option.getD_none, hok]
  exact ⟨trivial, trivial, trivial, hthr⟩

/-- Concrete witness for `fingerprint_enroll_verify_roundtrip`. -/
theorem fingerprint_enroll_verify_roundtrip_witness :
    ((fun _ : Bytes => ([0] : Bytes))
        ((fun b : Bytes => b) ((fun _ : Vec => ([0] : Bytes))
          (extract_fingerprint_features (fun _ => [255]) []))) =
      (fun _ : Vec => ([0] : Bytes)) (extract_fingerprint_features (fun _ => [255]) [])) ∧
    (∃ x ∈ extract_fingerprint_features (fun _ => [255]) ([] : Bytes), x ≠ 0) ∧
    ((verify_fingerprint (fun _ => [(255 : ℝ) / 255]) (fun _ => [0]) (fun _ => [255]) 9
        (enroll_fingerprint (fun _ => [0]) (fun b => b) (fun _ => [255]) [] 1
          (some [])).2 1 none (some [])).1.success = true) := by
  have hdec : (fun _ : Bytes => ([0] : Bytes))
      ((fun b : Bytes => b) ((fun _ : Vec => ([0] : Bytes))
        (extract_fingerprint_features (fun _ => [255]) []))) =
      (fun _ : Vec => ([0] : Bytes)) (extract_fingerprint_features (fun _ => [255]) []) :=
    rfl
  have hdeser : (fun _ : Bytes => [(255 : ℝ) / 255])
      ((fun _ : Vec => ([0] : Bytes)) (extract_fingerprint_features (fun _ => [255]) [])) =
      extract_fingerprint_features (fun _ => [255]) ([] : Bytes) := by
    simp [extract_fingerprint_features]
  have hnz : ∃ x ∈ extract_fingerprint_features (fun _ => [255]) ([] : Bytes), x ≠ 0 := by
    refine ⟨(255 : ℝ) / 255, ?_, by norm_num⟩
    simp [extract_fingerprint_features]
  exact ⟨hdec, hnz,
    (fingerprint_enroll_verify_roundtrip (fun _ => [0]) (fun b => b) (fun _ => [0])
      (fun _ => [255]) (fun _ => [(255 : ℝ) / 255]) 9 [] 1 [] hdec hdeser hnz).2.1⟩

end BiometricAuth
